import Mathlib

/-!
A shallow embedding of `graph/src/components/ethereum/types.rs`: the Ethereum
block/transaction/receipt normalizers, the block query surface, the call
extractor and the call-success evaluator, together with theorems settling the
spec's claims about them.

Numeric wire primitives (`H256`, `Address`, `U256`, `U64`, `Index`, `H2048`)
are modelled as `Nat`; `Bytes` as `List Nat`.  `Arc<T>` is shared immutable
data and is modelled as a plain value.  Functions that can panic are modelled
with an `Option` result where `none` stands for the panic.
-/

/-- Wire-level full transaction (`web3::types::Transaction`); only the fields
this module reads are needed, plus a few of the fields the normalizer drops
(`block_hash`, `block_number`, `v`, `r`, `s`). `from` is a Lean keyword, so the
sender field is written `from'` and the recipient `to'` throughout. -/
structure Web3.Transaction where
  hash : Nat
  nonce : Nat
  block_hash : Option Nat
  block_number : Option Nat
  transaction_index : Option Nat
  from' : Option Nat
  to' : Option Nat
  value : Nat
  gas_price : Option Nat
  gas : Nat
  input : List Nat
  v : Option Nat
  r : Option Nat
  s : Option Nat
  deriving Repr, DecidableEq

/-- Canonical light transaction record (`LightTransaction`). -/
structure LightTransaction where
  hash : Nat
  nonce : Nat
  transaction_index : Option Nat
  from' : Option Nat
  to' : Option Nat
  value : Nat
  gas_price : Option Nat
  gas : Nat
  input : List Nat
  deriving Repr, DecidableEq

/-- `impl From<Transaction> for LightTransaction` (the by-reference impl is
field-for-field identical). -/
def LightTransaction.ofTransaction (tx : Web3.Transaction) : LightTransaction :=
  { hash := tx.hash
    nonce := tx.nonce
    transaction_index := tx.transaction_index
    from' := tx.from'
    to' := tx.to'
    value := tx.value
    gas_price := tx.gas_price
    gas := tx.gas
    input := tx.input }

/-- Wire-level block header plus ordered transactions
(`web3::types::Block<TX>`), parameterized by the transaction representation. -/
structure Web3.Block (TX : Type) where
  hash : Option Nat
  parent_hash : Nat
  uncles_hash : Nat
  author : Option Nat
  state_root : Nat
  transactions_root : Nat
  receipts_root : Nat
  number : Option Nat
  gas_used : Nat
  gas_limit : Nat
  base_fee_per_gas : Option Nat
  extra_data : List Nat
  logs_bloom : Option Nat
  timestamp : Nat
  difficulty : Nat
  total_difficulty : Option Nat
  seal_fields : List (List Nat)
  uncles : List Nat
  transactions : List TX
  size : Option Nat
  mix_hash : Option Nat
  nonce : Option Nat
  deriving Repr, DecidableEq

/-- `pub type LightEthereumBlockV1 = Block<Transaction>;` -/
abbrev LightEthereumBlockV1 := Web3.Block Web3.Transaction

/-- `pub type LightEthereumBlockV2 = Block<LightTransaction>;` -/
abbrev LightEthereumBlockV2 := Web3.Block LightTransaction

/-- `pub type LightEthereumBlock = LightEthereumBlockV2;` -/
abbrev LightEthereumBlock := LightEthereumBlockV2

/-- `LightEthereumBlockFromV1To::from_v1`: map the transaction normalizer over
the transactions, copy every other header field unchanged. -/
def LightEthereumBlock.from_v1 (block : LightEthereumBlockV1) : LightEthereumBlock :=
  { hash := block.hash
    parent_hash := block.parent_hash
    uncles_hash := block.uncles_hash
    author := block.author
    state_root := block.state_root
    transactions_root := block.transactions_root
    receipts_root := block.receipts_root
    number := block.number
    gas_used := block.gas_used
    gas_limit := block.gas_limit
    base_fee_per_gas := block.base_fee_per_gas
    extra_data := block.extra_data
    logs_bloom := block.logs_bloom
    timestamp := block.timestamp
    difficulty := block.difficulty
    total_difficulty := block.total_difficulty
    seal_fields := block.seal_fields
    uncles := block.uncles
    transactions := block.transactions.map LightTransaction.ofTransaction
    size := block.size
    mix_hash := block.mix_hash
    nonce := block.nonce }

/-- The private error type of the fallible conversion (`struct ConversionError`). -/
structure ConversionError where
  deriving Repr, DecidableEq

/-- `LightEthereumBlockTryFromV1To::try_from`: wraps the infallible conversion
in `Ok`. -/
def LightEthereumBlock.try_from (block : LightEthereumBlockV1) :
    Except ConversionError LightEthereumBlock :=
  Except.ok (LightEthereumBlock.from_v1 block)

/-- Wire-level full transaction receipt (`web3::types::TransactionReceipt`);
the eleven fields the store projection keeps, plus the dropped
`transaction_type` and `effective_gas_price`. -/
structure Web3.TransactionReceipt where
  transaction_hash : Nat
  transaction_index : Nat
  block_hash : Option Nat
  block_number : Option Nat
  cumulative_gas_used : Nat
  gas_used : Option Nat
  contract_address : Option Nat
  logs : List Nat
  status : Option Nat
  root : Option Nat
  logs_bloom : Nat
  transaction_type : Option Nat
  effective_gas_price : Option Nat
  deriving Repr, DecidableEq

/-- Store-oriented receipt record (`StoreTransactionReceipt`). -/
structure StoreTransactionReceipt where
  transaction_hash : Nat
  transaction_index : Nat
  block_hash : Option Nat
  block_number : Option Nat
  cumulative_gas_used : Nat
  gas_used : Option Nat
  contract_address : Option Nat
  logs : List Nat
  status : Option Nat
  root : Option Nat
  logs_bloom : Nat
  deriving Repr, DecidableEq

/-- `impl From<TransactionReceipt> for StoreTransactionReceipt`. -/
def StoreTransactionReceipt.ofReceipt (receipt : Web3.TransactionReceipt) :
    StoreTransactionReceipt :=
  { transaction_hash := receipt.transaction_hash
    transaction_index := receipt.transaction_index
    block_hash := receipt.block_hash
    block_number := receipt.block_number
    cumulative_gas_used := receipt.cumulative_gas_used
    gas_used := receipt.gas_used
    contract_address := receipt.contract_address
    logs := receipt.logs
    status := receipt.status
    root := receipt.root
    logs_bloom := receipt.logs_bloom }

/-- `EthereumBlockV1`: shared block body plus full receipts. -/
structure EthereumBlockV1 where
  block : LightEthereumBlock
  transaction_receipts : List Web3.TransactionReceipt
  deriving Repr, DecidableEq

/-- `EthereumBlockV2`: shared block body plus store receipts. -/
structure EthereumBlockV2 where
  block : LightEthereumBlock
  transaction_receipts : List StoreTransactionReceipt
  deriving Repr, DecidableEq

/-- `impl From<EthereumBlockV1> for EthereumBlockV2`: keep the shared block
body, map the receipt normalizer over the receipts. -/
def EthereumBlockV2.ofV1 (b : EthereumBlockV1) : EthereumBlockV2 :=
  { block := b.block
    transaction_receipts := b.transaction_receipts.map StoreTransactionReceipt.ofReceipt }

/-- `pub type EthereumBlock = EthereumBlockV2;` -/
abbrev EthereumBlock := EthereumBlockV2

/-- Modelled from the spec: `BlockNumber` is imported from the crate prelude,
which is not part of this source tree.  The source converts the header's u64
number with a checked `BlockNumber::try_from(...)` that it unwraps, so
`BlockNumber` is a narrower integer type; upstream it is a 32-bit signed
integer, so the checked conversion succeeds exactly on values up to
`2^31 - 1`. -/
def blockNumberTryFrom (n : Nat) : Option Int :=
  if n ≤ 2 ^ 31 - 1 then some (Int.ofNat n) else none

/-- Modelled from the spec: the unchecked Rust `as` cast from a u64 into the
32-bit signed `BlockNumber` (a type outside this source tree) keeps the low 32
bits and reinterprets them as two's complement. -/
def u64AsBlockNumber (n : Nat) : Int :=
  if n % 2 ^ 32 < 2 ^ 31 then Int.ofNat (n % 2 ^ 32)
  else Int.ofNat (n % 2 ^ 32) - 2 ^ 32

/-- Modelled from the spec: `BlockPtr` (from `crate::blockchain`, outside this
source tree) is an opaque (hash, number) pair identifying a block's chain
position; its `From` conversions are plain pair constructors. -/
structure BlockPtr where
  hash : Nat
  number : Int
  deriving Repr, DecidableEq

/-- Wire-level log (`web3::types::Log`); only `transaction_hash` is read by
this module. -/
structure Web3.Log where
  address : Nat
  topics : List Nat
  data : List Nat
  block_hash : Option Nat
  block_number : Option Nat
  transaction_hash : Option Nat
  transaction_index : Option Nat
  log_index : Option Nat
  deriving Repr, DecidableEq

/-- Canonical contract-call record (`EthereumCall`); `block_number` has the
(spec-modelled, 32-bit signed) `BlockNumber` type and is therefore an `Int`. -/
structure EthereumCall where
  from' : Nat
  to' : Nat
  value : Nat
  gas_used : Nat
  input : List Nat
  output : List Nat
  block_number : Int
  block_hash : Nat
  transaction_hash : Option Nat
  transaction_index : Nat
  deriving Repr, DecidableEq

/-- `LightEthereumBlockExt::number`:
`BlockNumber::try_from(self.number.unwrap().as_u64()).unwrap()` — panics
(modelled as `none`) when the header number is absent or out of the
`BlockNumber` range. -/
def LightEthereumBlockExt.number (b : LightEthereumBlock) : Option Int :=
  match b.number with
  | Option.none => Option.none
  | some n => blockNumberTryFrom n

/-- `LightEthereumBlockExt::transaction_for_log`: linear scan of the block's
transactions by the log's transaction hash. -/
def LightEthereumBlockExt.transaction_for_log (b : LightEthereumBlock) (log : Web3.Log) :
    Option LightTransaction :=
  log.transaction_hash.bind fun hash => b.transactions.find? fun tx => tx.hash == hash

/-- `LightEthereumBlockExt::transaction_for_call`: linear scan of the block's
transactions by the call's transaction hash. -/
def LightEthereumBlockExt.transaction_for_call (b : LightEthereumBlock) (call : EthereumCall) :
    Option LightTransaction :=
  call.transaction_hash.bind fun hash => b.transactions.find? fun tx => tx.hash == hash

/-- `LightEthereumBlockExt::parent_ptr`: `None` at height 0, otherwise a
pointer at the parent hash and height minus one.  The outer `Option` is the
panic of the inner `number()` call (`none` = panic); the inner `Option` is the
function's own return value. -/
def LightEthereumBlockExt.parent_ptr (b : LightEthereumBlock) : Option (Option BlockPtr) :=
  match LightEthereumBlockExt.number b with
  | Option.none => Option.none
  | some n =>
      if n = 0 then some Option.none
      else some (some { hash := b.parent_hash, number := n - 1 })

/-- `LightEthereumBlockExt::block_ptr`:
`BlockPtr::from((self.hash.unwrap(), self.number.unwrap().as_u64()))` — panics
(modelled as `none`) when the header hash or number is absent. -/
def LightEthereumBlockExt.block_ptr (b : LightEthereumBlock) : Option BlockPtr :=
  match b.hash, b.number with
  | some h, some n => some { hash := h, number := Int.ofNat n }
  | _, _ => Option.none

/-- `impl From<EthereumBlock> for BlockPtr` (and the by-reference impl):
`BlockPtr::from((b.block.hash.unwrap(), b.block.number.unwrap().as_u64()))`,
panics (modelled as `none`) when the block body's hash or number is absent. -/
def BlockPtr.ofEthereumBlock (b : EthereumBlock) : Option BlockPtr :=
  match b.block.hash, b.block.number with
  | some h, some n => some { hash := h, number := Int.ofNat n }
  | _, _ => Option.none

/-- `evaluate_transaction_status`: success iff the status value is nonzero;
absent status (pre-EIP-658) defaults to success. -/
def evaluate_transaction_status (receipt_status : Option Nat) : Bool :=
  (receipt_status.map fun status => !(status == 0)).getD true

/-- `EthereumBlockWithCalls`: a block paired with `None` = "not yet checked
for calls" or `Some calls` = "checked". -/
structure EthereumBlockWithCalls where
  ethereum_block : EthereumBlock
  calls : Option (List EthereumCall)
  deriving Repr, DecidableEq

/-- `EthereumBlockWithCalls::transaction_for_call_succeeded`: require the call
to carry a transaction hash, find the receipt with that transaction hash, and
apply the status rule; the two lookup failures are recoverable errors. -/
def EthereumBlockWithCalls.transaction_for_call_succeeded
    (b : EthereumBlockWithCalls) (call : EthereumCall) : Except String Bool :=
  match call.transaction_hash with
  | Option.none => Except.error "failed to find a transaction for this call"
  | some call_transaction_hash =>
      match b.ethereum_block.transaction_receipts.find?
          (fun txn => txn.transaction_hash == call_transaction_hash) with
      | Option.none => Except.error "failed to find the receipt for this transaction"
      | some receipt => Except.ok (evaluate_transaction_status receipt.status)

/-- Wire-level call action (`web3::types::Call`); `call_type` is carried but
never read by this module. -/
structure Web3.Call where
  from' : Nat
  to' : Nat
  value : Nat
  gas : Nat
  input : List Nat
  call_type : Nat
  deriving Repr, DecidableEq

/-- Wire-level trace action variants (`web3::types::Action`); the payloads of
the non-call variants are never read by this module and are omitted. -/
inductive Web3.Action where
  | call (c : Web3.Call)
  | create
  | suicide
  | reward
  deriving Repr, DecidableEq

/-- Wire-level call result (`web3::types::CallResult`). -/
structure Web3.CallResult where
  gas_used : Nat
  output : List Nat
  deriving Repr, DecidableEq

/-- Wire-level trace result variants (`web3::types::Res`); the payloads of the
non-call variants are never read by this module. -/
inductive Web3.Res where
  | call (r : Web3.CallResult)
  | create
  | failedCall (e : Nat)
  | failedCreate (e : Nat)
  | none'
  deriving Repr, DecidableEq

/-- Wire-level execution trace (`web3::types::Trace`). -/
structure Web3.Trace where
  action : Web3.Action
  result : Option Web3.Res
  trace_address : List Nat
  subtraces : Nat
  transaction_position : Option Nat
  transaction_hash : Option Nat
  block_number : Nat
  block_hash : Nat
  error : Option String
  deriving Repr, DecidableEq

/-- `EthereumCall::try_from_trace`: reject errorful traces, non-call actions,
inputs shorter than a function selector, non-call results and traces without a
transaction position; otherwise build the canonical call record. -/
def EthereumCall.try_from_trace (trace : Web3.Trace) : Option EthereumCall :=
  if trace.error.isSome then Option.none
  else
    match trace.action with
    | Web3.Action.call call =>
        if 4 ≤ call.input.length then
          match trace.result with
          | some (Web3.Res.call result) =>
              match trace.transaction_position with
              | some transaction_position =>
                  some { from' := call.from'
                         to' := call.to'
                         value := call.value
                         gas_used := result.gas_used
                         input := call.input
                         output := result.output
                         block_number := u64AsBlockNumber trace.block_number
                         block_hash := trace.block_hash
                         transaction_hash := trace.transaction_hash
                         transaction_index := transaction_position }
              | Option.none => Option.none
          | _ => Option.none
        else Option.none
    | _ => Option.none

/-! Concrete sample values used by witnesses and counterexamples. -/

def sampleTx : LightTransaction :=
  { hash := 7, nonce := 0, transaction_index := some 0, from' := some 1, to' := some 2,
    value := 0, gas_price := some 0, gas := 0, input := [] }

def sampleBlock : LightEthereumBlock :=
  { hash := some 10, parent_hash := 9, uncles_hash := 0, author := some 0, state_root := 0,
    transactions_root := 0, receipts_root := 0, number := some 5, gas_used := 0, gas_limit := 0,
    base_fee_per_gas := Option.none, extra_data := [], logs_bloom := Option.none, timestamp := 0,
    difficulty := 0, total_difficulty := Option.none, seal_fields := [], uncles := [],
    transactions := [sampleTx], size := Option.none, mix_hash := Option.none,
    nonce := Option.none }

def genesisBlock : LightEthereumBlock :=
  { sampleBlock with number := some 0 }

def noNumberBlock : LightEthereumBlock :=
  { sampleBlock with number := Option.none }

def overflowBlock : LightEthereumBlock :=
  { sampleBlock with number := some (2 ^ 31) }

def sampleStoreReceipt : StoreTransactionReceipt :=
  { transaction_hash := 7, transaction_index := 0, block_hash := some 10,
    block_number := some 5, cumulative_gas_used := 0, gas_used := some 0,
    contract_address := Option.none, logs := [], status := some 1, root := Option.none,
    logs_bloom := 0 }

def sampleEthereumBlock : EthereumBlock :=
  { block := sampleBlock, transaction_receipts := [sampleStoreReceipt] }

def sampleBlockWithCalls : EthereumBlockWithCalls :=
  { ethereum_block := sampleEthereumBlock, calls := Option.none }

def sampleCall : EthereumCall :=
  { from' := 1, to' := 2, value := 0, gas_used := 0, input := [0, 1, 2, 3], output := [],
    block_number := 5, block_hash := 10, transaction_hash := some 7, transaction_index := 0 }

def noHashCall : EthereumCall :=
  { sampleCall with transaction_hash := Option.none }

def unmatchedCall : EthereumCall :=
  { sampleCall with transaction_hash := some 8 }

def sampleLog : Web3.Log :=
  { address := 0, topics := [], data := [], block_hash := some 10, block_number := some 5,
    transaction_hash := some 7, transaction_index := some 0, log_index := some 0 }

def sampleTrace : Web3.Trace :=
  { action := Web3.Action.call
      { from' := 1, to' := 2, value := 3, gas := 0, input := [0, 1, 2, 3], call_type := 0 },
    result := some (Web3.Res.call { gas_used := 5, output := [9] }),
    trace_address := [], subtraces := 0, transaction_position := some 2,
    transaction_hash := some 11, block_number := 6, block_hash := 12, error := Option.none }

def overflowTrace : Web3.Trace :=
  { sampleTrace with block_number := 2 ^ 31 }

/-- C1: `evaluate_transaction_status` returns `false` on status `Some(0)`,
`true` on `Some(v)` for any nonzero `v`, and `true` on `None` (pre-EIP-658
receipts default to success). -/
theorem evaluate_transaction_status_spec (v : Nat) (hv : v ≠ 0) :
    evaluate_transaction_status (some 0) = false ∧
    evaluate_transaction_status (some v) = true ∧
    evaluate_transaction_status Option.none = true := by
  refine ⟨rfl, ?_, rfl⟩
  simp [evaluate_transaction_status, hv]

theorem evaluate_transaction_status_spec_witness :
    evaluate_transaction_status (some 0) = false ∧
    evaluate_transaction_status (some 1) = true ∧
    evaluate_transaction_status Option.none = true :=
  evaluate_transaction_status_spec 1 (by decide)

/-- C4: `from_v1` maps the transaction normalizer over the transaction
sequence (hence preserves its length and order) and copies every
non-transaction header field unchanged. -/
theorem from_v1_spec (b : LightEthereumBlockV1) :
    (LightEthereumBlock.from_v1 b).transactions
        = b.transactions.map LightTransaction.ofTransaction ∧
    (LightEthereumBlock.from_v1 b).transactions.length = b.transactions.length ∧
    (LightEthereumBlock.from_v1 b).hash = b.hash ∧
    (LightEthereumBlock.from_v1 b).parent_hash = b.parent_hash ∧
    (LightEthereumBlock.from_v1 b).uncles_hash = b.uncles_hash ∧
    (LightEthereumBlock.from_v1 b).author = b.author ∧
    (LightEthereumBlock.from_v1 b).state_root = b.state_root ∧
    (LightEthereumBlock.from_v1 b).transactions_root = b.transactions_root ∧
    (LightEthereumBlock.from_v1 b).receipts_root = b.receipts_root ∧
    (LightEthereumBlock.from_v1 b).number = b.number ∧
    (LightEthereumBlock.from_v1 b).gas_used = b.gas_used ∧
    (LightEthereumBlock.from_v1 b).gas_limit = b.gas_limit ∧
    (LightEthereumBlock.from_v1 b).base_fee_per_gas = b.base_fee_per_gas ∧
    (LightEthereumBlock.from_v1 b).extra_data = b.extra_data ∧
    (LightEthereumBlock.from_v1 b).logs_bloom = b.logs_bloom ∧
    (LightEthereumBlock.from_v1 b).timestamp = b.timestamp ∧
    (LightEthereumBlock.from_v1 b).difficulty = b.difficulty ∧
    (LightEthereumBlock.from_v1 b).total_difficulty = b.total_difficulty ∧
    (LightEthereumBlock.from_v1 b).seal_fields = b.seal_fields ∧
    (LightEthereumBlock.from_v1 b).uncles = b.uncles ∧
    (LightEthereumBlock.from_v1 b).size = b.size ∧
    (LightEthereumBlock.from_v1 b).mix_hash = b.mix_hash ∧
    (LightEthereumBlock.from_v1 b).nonce = b.nonce := by
  refine ⟨rfl, ?_, rfl, rfl, rfl, rfl, rfl, rfl, rfl, rfl, rfl, rfl, rfl, rfl, rfl, rfl,
    rfl, rfl, rfl, rfl, rfl, rfl, rfl⟩
  simp [LightEthereumBlock.from_v1]

/-- C5: the V1 → V2 conversion of the receipt-bearing block keeps the shared
block body unchanged and maps each full receipt independently to a store
receipt, preserving sequence length and order; the receipt normalizer copies
every retained field unchanged. -/
theorem ethereum_block_v1_to_v2_spec (b : EthereumBlockV1) (r : Web3.TransactionReceipt) :
    (EthereumBlockV2.ofV1 b).block = b.block ∧
    (EthereumBlockV2.ofV1 b).transaction_receipts
        = b.transaction_receipts.map StoreTransactionReceipt.ofReceipt ∧
    (EthereumBlockV2.ofV1 b).transaction_receipts.length
        = b.transaction_receipts.length ∧
    (StoreTransactionReceipt.ofReceipt r).transaction_hash = r.transaction_hash ∧
    (StoreTransactionReceipt.ofReceipt r).transaction_index = r.transaction_index ∧
    (StoreTransactionReceipt.ofReceipt r).block_hash = r.block_hash ∧
    (StoreTransactionReceipt.ofReceipt r).block_number = r.block_number ∧
    (StoreTransactionReceipt.ofReceipt r).cumulative_gas_used = r.cumulative_gas_used ∧
    (StoreTransactionReceipt.ofReceipt r).gas_used = r.gas_used ∧
    (StoreTransactionReceipt.ofReceipt r).contract_address = r.contract_address ∧
    (StoreTransactionReceipt.ofReceipt r).logs = r.logs ∧
    (StoreTransactionReceipt.ofReceipt r).status = r.status ∧
    (StoreTransactionReceipt.ofReceipt r).root = r.root ∧
    (StoreTransactionReceipt.ofReceipt r).logs_bloom = r.logs_bloom := by
  refine ⟨rfl, rfl, ?_, rfl, rfl, rfl, rfl, rfl, rfl, rfl, rfl, rfl, rfl, rfl⟩
  simp [EthereumBlockV2.ofV1]

/-- C6: the fallible conversion entry point never fails — it returns `Ok` of
exactly the infallible conversion's result on every input. -/
theorem try_from_total_spec (block : LightEthereumBlockV1) :
    LightEthereumBlock.try_from block = Except.ok (LightEthereumBlock.from_v1 block) :=
  rfl

/-- C2: the call-success evaluator returns a recoverable error when the call
carries no transaction hash, a recoverable error when no receipt in the block
matches the call's transaction hash, and otherwise `Ok` of the status rule
applied to the matching receipt's status field — never a guessed outcome in
the error cases. -/
theorem transaction_for_call_succeeded_spec (b : EthereumBlockWithCalls) (call : EthereumCall) :
    (call.transaction_hash = Option.none →
      b.transaction_for_call_succeeded call
        = Except.error "failed to find a transaction for this call") ∧
    (∀ h, call.transaction_hash = some h →
      (∀ r ∈ b.ethereum_block.transaction_receipts, r.transaction_hash ≠ h) →
      b.transaction_for_call_succeeded call
        = Except.error "failed to find the receipt for this transaction") ∧
    (∀ h, call.transaction_hash = some h →
      (∃ r ∈ b.ethereum_block.transaction_receipts, r.transaction_hash = h) →
      ∃ r ∈ b.ethereum_block.transaction_receipts, r.transaction_hash = h ∧
        b.transaction_for_call_succeeded call
          = Except.ok (evaluate_transaction_status r.status)) := by
  refine ⟨fun hnone => ?_, fun h hh hmiss => ?_, fun h hh hhit => ?_⟩
  · simp [EthereumBlockWithCalls.transaction_for_call_succeeded, hnone]
  · have hfind : b.ethereum_block.transaction_receipts.find?
        (fun txn => txn.transaction_hash == h) = Option.none := by
      rw [List.find?_eq_none]
      intro r hr
      simpa using hmiss r hr
    simp [EthereumBlockWithCalls.transaction_for_call_succeeded, hh, hfind]
  · have hsome : (b.ethereum_block.transaction_receipts.find?
        (fun txn => txn.transaction_hash == h)).isSome := by
      rw [List.find?_isSome]
      obtain ⟨r, hr, hrh⟩ := hhit
      exact ⟨r, hr, by simpa using hrh⟩
    obtain ⟨r, hfind⟩ := Option.isSome_iff_exists.mp hsome
    refine ⟨r, List.mem_of_find?_eq_some hfind, by simpa using List.find?_some hfind, ?_⟩
    simp [EthereumBlockWithCalls.transaction_for_call_succeeded, hh, hfind]

theorem transaction_for_call_succeeded_spec_witness :
    sampleBlockWithCalls.transaction_for_call_succeeded noHashCall
      = Except.error "failed to find a transaction for this call" ∧
    sampleBlockWithCalls.transaction_for_call_succeeded unmatchedCall
      = Except.error "failed to find the receipt for this transaction" ∧
    (∃ r ∈ sampleBlockWithCalls.ethereum_block.transaction_receipts,
      r.transaction_hash = 7 ∧
      sampleBlockWithCalls.transaction_for_call_succeeded sampleCall
        = Except.ok (evaluate_transaction_status r.status)) := by
  refine ⟨(transaction_for_call_succeeded_spec sampleBlockWithCalls noHashCall).1 rfl,
    (transaction_for_call_succeeded_spec sampleBlockWithCalls unmatchedCall).2.1 8 rfl
      (by decide),
    (transaction_for_call_succeeded_spec sampleBlockWithCalls sampleCall).2.2 7 rfl
      ⟨sampleStoreReceipt, by decide, by decide⟩⟩

/-- C7: `transaction_for_log` and `transaction_for_call` return `None` when
the log/call carries no transaction hash; otherwise they return a transaction
of the block with exactly that hash, and `None` precisely when no transaction
in the block has that hash. -/
theorem transaction_lookup_spec (b : LightEthereumBlock) (log : Web3.Log)
    (call : EthereumCall) :
    (log.transaction_hash = Option.none →
      LightEthereumBlockExt.transaction_for_log b log = Option.none) ∧
    (∀ h, log.transaction_hash = some h →
      ((∀ tx ∈ b.transactions, tx.hash ≠ h) →
        LightEthereumBlockExt.transaction_for_log b log = Option.none) ∧
      (∀ tx, LightEthereumBlockExt.transaction_for_log b log = some tx →
        tx ∈ b.transactions ∧ tx.hash = h) ∧
      ((∃ tx ∈ b.transactions, tx.hash = h) →
        ∃ tx, LightEthereumBlockExt.transaction_for_log b log = some tx)) ∧
    (call.transaction_hash = Option.none →
      LightEthereumBlockExt.transaction_for_call b call = Option.none) ∧
    (∀ h, call.transaction_hash = some h →
      ((∀ tx ∈ b.transactions, tx.hash ≠ h) →
        LightEthereumBlockExt.transaction_for_call b call = Option.none) ∧
      (∀ tx, LightEthereumBlockExt.transaction_for_call b call = some tx →
        tx ∈ b.transactions ∧ tx.hash = h) ∧
      ((∃ tx ∈ b.transactions, tx.hash = h) →
        ∃ tx, LightEthereumBlockExt.transaction_for_call b call = some tx)) := by
  refine ⟨fun hnone => ?_, fun h hh => ⟨fun hmiss => ?_, fun tx htx => ?_, fun hhit => ?_⟩,
    fun hnone => ?_, fun h hh => ⟨fun hmiss => ?_, fun tx htx => ?_, fun hhit => ?_⟩⟩
  · simp [LightEthereumBlockExt.transaction_for_log, hnone]
  · have hfind : b.transactions.find? (fun tx => tx.hash == h) = Option.none := by
      rw [List.find?_eq_none]
      intro tx htx
      simpa using hmiss tx htx
    simp [LightEthereumBlockExt.transaction_for_log, hh, hfind]
  · rw [LightEthereumBlockExt.transaction_for_log, hh, Option.some_bind] at htx
    exact ⟨List.mem_of_find?_eq_some htx, by simpa using List.find?_some htx⟩
  · have hsome : (b.transactions.find? (fun tx => tx.hash == h)).isSome := by
      rw [List.find?_isSome]
      obtain ⟨tx, htx, hth⟩ := hhit
      exact ⟨tx, htx, by simpa using hth⟩
    obtain ⟨tx, hfind⟩ := Option.isSome_iff_exists.mp hsome
    exact ⟨tx, by simp [LightEthereumBlockExt.transaction_for_log, hh, hfind]⟩
  · simp [LightEthereumBlockExt.transaction_for_call, hnone]
  · have hfind : b.transactions.find? (fun tx => tx.hash == h) = Option.none := by
      rw [List.find?_eq_none]
      intro tx htx
      simpa using hmiss tx htx
    simp [LightEthereumBlockExt.transaction_for_call, hh, hfind]
  · rw [LightEthereumBlockExt.transaction_for_call, hh, Option.some_bind] at htx
    exact ⟨List.mem_of_find?_eq_some htx, by simpa using List.find?_some htx⟩
  · have hsome : (b.transactions.find? (fun tx => tx.hash == h)).isSome := by
      rw [List.find?_isSome]
      obtain ⟨tx, htx, hth⟩ := hhit
      exact ⟨tx, htx, by simpa using hth⟩
    obtain ⟨tx, hfind⟩ := Option.isSome_iff_exists.mp hsome
    exact ⟨tx, by simp [LightEthereumBlockExt.transaction_for_call, hh, hfind]⟩

theorem transaction_lookup_spec_witness :
    (∃ tx, LightEthereumBlockExt.transaction_for_log sampleBlock sampleLog = some tx) ∧
    LightEthereumBlockExt.transaction_for_call sampleBlock noHashCall = Option.none ∧
    LightEthereumBlockExt.transaction_for_call sampleBlock unmatchedCall = Option.none := by
  refine ⟨((transaction_lookup_spec sampleBlock sampleLog sampleCall).2.1 7 rfl).2.2
      ⟨sampleTx, by decide, by decide⟩,
    (transaction_lookup_spec sampleBlock sampleLog noHashCall).2.2.1 rfl,
    ((transaction_lookup_spec sampleBlock sampleLog unmatchedCall).2.2.2 8 rfl).1
      (by decide)⟩

/-- C3 counterexample: at a trace whose block number is `2^31`, the extractor
produces a call, but the call's block number is the wrapped 32-bit value
`-2^31`, not the trace's block number. -/
theorem try_from_trace_overflow_cex :
    overflowTrace.block_number = 2147483648 ∧
    (EthereumCall.try_from_trace overflowTrace).isSome = true ∧
    (EthereumCall.try_from_trace overflowTrace).map EthereumCall.block_number
      = some (-2147483648 : Int) ∧
    (EthereumCall.try_from_trace overflowTrace).map EthereumCall.block_number
      ≠ some (Int.ofNat overflowTrace.block_number) := by
  refine ⟨by decide, by decide, by decide, by decide⟩

/-- C3 (amended): `try_from_trace` returns `None` when the trace has an error,
a non-call action, an input shorter than 4 bytes, a non-call result, or no
transaction position; otherwise it returns exactly one call taking
from/to/value/input from the action, output/gas-used from the result, block
hash and transaction hash from the trace, transaction index from the trace's
transaction position, and block number equal to the trace's block number cast
(truncated) into the 32-bit signed `BlockNumber` type — which equals the
trace's block number whenever that is below `2^31`. -/
theorem try_from_trace_spec (t : Web3.Trace) :
    (t.error.isSome → EthereumCall.try_from_trace t = Option.none) ∧
    ((∀ c, t.action ≠ Web3.Action.call c) →
      EthereumCall.try_from_trace t = Option.none) ∧
    (∀ c, t.action = Web3.Action.call c → c.input.length < 4 →
      EthereumCall.try_from_trace t = Option.none) ∧
    ((∀ r, t.result ≠ some (Web3.Res.call r)) →
      EthereumCall.try_from_trace t = Option.none) ∧
    (t.transaction_position = Option.none →
      EthereumCall.try_from_trace t = Option.none) ∧
    (∀ c r p, t.error = Option.none → t.action = Web3.Action.call c →
      4 ≤ c.input.length → t.result = some (Web3.Res.call r) →
      t.transaction_position = some p →
      EthereumCall.try_from_trace t
        = some { from' := c.from', to' := c.to', value := c.value,
                 gas_used := r.gas_used, input := c.input, output := r.output,
                 block_number := u64AsBlockNumber t.block_number,
                 block_hash := t.block_hash,
                 transaction_hash := t.transaction_hash,
                 transaction_index := p }) := by
  unfold EthereumCall.try_from_trace
  refine ⟨fun herr => by simp [herr], fun hact => ?_, fun c hact hlen => ?_,
    fun hres => ?_, fun hpos => ?_, fun c r p herr hact hlen hres hpos => ?_⟩
  · by_cases herr : t.error.isSome
    · simp [herr]
    · cases ha : t.action with
      | call c => exact absurd ha (hact c)
      | create => simp [herr]
      | suicide => simp [herr]
      | reward => simp [herr]
  · by_cases herr : t.error.isSome
    · simp [herr]
    · simp [herr, hact, Nat.not_le_of_lt hlen]
  · by_cases herr : t.error.isSome
    · simp [herr]
    · cases ha : t.action with
      | call c =>
          by_cases hlen : 4 ≤ c.input.length
          · cases hr : t.result with
            | none => simp [herr, hlen]
            | some res =>
                cases res with
                | call cr => exact absurd hr (hres cr)
                | create => simp [herr, hlen]
                | failedCall e => simp [herr, hlen]
                | failedCreate e => simp [herr, hlen]
                | none' => simp [herr, hlen]
          · simp [herr, hlen]
      | create => simp [herr]
      | suicide => simp [herr]
      | reward => simp [herr]
  · by_cases herr : t.error.isSome
    · simp [herr]
    · cases ha : t.action with
      | call c =>
          by_cases hlen : 4 ≤ c.input.length
          · cases hr : t.result with
            | none => simp [herr, hlen]
            | some res =>
                cases res with
                | call cr => simp [herr, hlen, hpos]
                | create => simp [herr, hlen]
                | failedCall e => simp [herr, hlen]
                | failedCreate e => simp [herr, hlen]
                | none' => simp [herr, hlen]
          · simp [herr, hlen]
      | create => simp [herr]
      | suicide => simp [herr]
      | reward => simp [herr]
  · simp [herr, hact, hlen, hres, hpos]

theorem try_from_trace_spec_witness :
    EthereumCall.try_from_trace sampleTrace
      = some { from' := 1, to' := 2, value := 3, gas_used := 5,
               input := [0, 1, 2, 3], output := [9], block_number := 6,
               block_hash := 12, transaction_hash := some 11,
               transaction_index := 2 } ∧
    EthereumCall.try_from_trace { sampleTrace with error := some "Reverted" }
      = Option.none ∧
    EthereumCall.try_from_trace { sampleTrace with transaction_position := Option.none }
      = Option.none := by
  refine ⟨?_, ?_, ?_⟩
  · have h := (try_from_trace_spec sampleTrace).2.2.2.2.2
      { from' := 1, to' := 2, value := 3, gas := 0, input := [0, 1, 2, 3], call_type := 0 }
      { gas_used := 5, output := [9] } 2 rfl rfl (by decide) rfl rfl
    simpa using h
  · exact (try_from_trace_spec { sampleTrace with error := some "Reverted" }).1 (by decide)
  · exact (try_from_trace_spec
      { sampleTrace with transaction_position := Option.none }).2.2.2.2.1 rfl

/-- C8 counterexample: a block whose header number is present but equal to
`2^31` makes the inner `number()` call panic (modelled `none`), so
`parent_ptr` aborts instead of returning a pointer at height `2^31 - 1`. -/
theorem parent_ptr_overflow_cex :
    overflowBlock.number = some 2147483648 ∧
    LightEthereumBlockExt.parent_ptr overflowBlock = Option.none := by
  refine ⟨by decide, by decide⟩

/-- C8 (amended): for every block whose header number is present and within
the `BlockNumber` range (at most `2^31 - 1`), `parent_ptr` returns `None` at
height 0 and, at height `N > 0`, a pointer built from the header's parent
hash and height `N - 1`. -/
theorem parent_ptr_spec (b : LightEthereumBlock) (n : Nat) (h1 : b.number = some n)
    (h2 : n ≤ 2 ^ 31 - 1) :
    LightEthereumBlockExt.parent_ptr b
      = some (if n = 0 then Option.none
              else some { hash := b.parent_hash, number := Int.ofNat n - 1 }) := by
  unfold LightEthereumBlockExt.parent_ptr LightEthereumBlockExt.number blockNumberTryFrom
  rw [h1]
  simp only [h2, if_true]
  by_cases hn : n = 0
  · simp [hn]
  · simp [hn, Int.ofNat_eq_zero]

theorem parent_ptr_spec_witness :
    LightEthereumBlockExt.parent_ptr genesisBlock = some Option.none ∧
    LightEthereumBlockExt.parent_ptr sampleBlock
      = some (some { hash := 9, number := 4 }) := by
  constructor
  · have h := parent_ptr_spec genesisBlock 0 rfl (by decide)
    simpa using h
  · have h := parent_ptr_spec sampleBlock 5 rfl (by decide)
    simpa using h

/-- C9: when the header hash and number are both present, `block_ptr` (and the
`BlockPtr` conversion from an `EthereumBlock`) returns a pointer built from
exactly that hash and that number; when either is absent it aborts (modelled
`none`) rather than returning a recoverable error. -/
theorem block_ptr_spec (b : LightEthereumBlock) (eb : EthereumBlock) :
    (∀ h n, b.hash = some h → b.number = some n →
      LightEthereumBlockExt.block_ptr b = some { hash := h, number := Int.ofNat n }) ∧
    (b.hash = Option.none ∨ b.number = Option.none →
      LightEthereumBlockExt.block_ptr b = Option.none) ∧
    (∀ h n, eb.block.hash = some h → eb.block.number = some n →
      BlockPtr.ofEthereumBlock eb = some { hash := h, number := Int.ofNat n }) ∧
    (eb.block.hash = Option.none ∨ eb.block.number = Option.none →
      BlockPtr.ofEthereumBlock eb = Option.none) := by
  refine ⟨fun h n hh hn => ?_, fun habs => ?_, fun h n hh hn => ?_, fun habs => ?_⟩
  · simp [LightEthereumBlockExt.block_ptr, hh, hn]
  · rcases habs with hh | hn
    · simp [LightEthereumBlockExt.block_ptr, hh]
    · cases hb : b.hash <;> simp [LightEthereumBlockExt.block_ptr, hb, hn]
  · simp [BlockPtr.ofEthereumBlock, hh, hn]
  · rcases habs with hh | hn
    · simp [BlockPtr.ofEthereumBlock, hh]
    · cases hb : eb.block.hash <;> simp [BlockPtr.ofEthereumBlock, hb, hn]

theorem block_ptr_spec_witness :
    LightEthereumBlockExt.block_ptr sampleBlock = some { hash := 10, number := 5 } ∧
    LightEthereumBlockExt.block_ptr noNumberBlock = Option.none ∧
    BlockPtr.ofEthereumBlock sampleEthereumBlock = some { hash := 10, number := 5 } := by
  refine ⟨(block_ptr_spec sampleBlock sampleEthereumBlock).1 10 5 rfl rfl,
    (block_ptr_spec noNumberBlock sampleEthereumBlock).2.1 (Or.inr rfl),
    (block_ptr_spec sampleBlock sampleEthereumBlock).2.2.1 10 5 rfl rfl⟩

/-- C10: `number()` aborts (modelled `none`) both when the header number is
absent and when the present value does not fit the narrowed `BlockNumber`
type; when it is present and in range it returns exactly that value; and
`parent_ptr`, which calls `number()`, inherits both abort conditions. -/
theorem number_narrowing_spec (b : LightEthereumBlock) (n : Nat) :
    (b.number = Option.none → LightEthereumBlockExt.number b = Option.none) ∧
    (b.number = some n → 2 ^ 31 - 1 < n →
      LightEthereumBlockExt.number b = Option.none) ∧
    (b.number = some n → n ≤ 2 ^ 31 - 1 →
      LightEthereumBlockExt.number b = some (Int.ofNat n)) ∧
    (LightEthereumBlockExt.number b = Option.none →
      LightEthereumBlockExt.parent_ptr b = Option.none) := by
  refine ⟨fun habs => ?_, fun hn hgt => ?_, fun hn hle => ?_, fun habort => ?_⟩
  · simp [LightEthereumBlockExt.number, habs]
  · simp only [LightEthereumBlockExt.number, blockNumberTryFrom, hn]
    rw [if_neg (by omega)]
  · simp only [LightEthereumBlockExt.number, blockNumberTryFrom, hn]
    rw [if_pos (by omega)]
  · simp [LightEthereumBlockExt.parent_ptr, habort]

theorem number_narrowing_spec_witness :
    LightEthereumBlockExt.number noNumberBlock = Option.none ∧
    LightEthereumBlockExt.number overflowBlock = Option.none ∧
    LightEthereumBlockExt.number sampleBlock = some 5 ∧
    LightEthereumBlockExt.parent_ptr overflowBlock = Option.none := by
  refine ⟨(number_narrowing_spec noNumberBlock 0).1 rfl,
    (number_narrowing_spec overflowBlock (2 ^ 31)).2.1 rfl (by decide),
    ?_,
    (number_narrowing_spec overflowBlock (2 ^ 31)).2.2.2
      ((number_narrowing_spec overflowBlock (2 ^ 31)).2.1 rfl (by decide))⟩
  have h := (number_narrowing_spec sampleBlock 5).2.2.1 rfl (by decide)
  simpa using h
